import Mathlib

/-
Verification of the cpt-dl URL-templating and download module
(src/cptdl/utilities.py) via a shallow embedding in Lean 4.

Conventions of the embedding:
  * Python values that can occur as keyword arguments are `PyVal`;
    `str(v)` is `PyVal.strForm`.
  * An f-string template is a list of `Segment`s: literal text
    alternating with interpolation markers that reference a name.
  * The CPython semantics of `locals().update(**kwargs)` followed by
    `eval('f"..."')` (utilities.py lines 131-132) is modelled by
    `envLookup`: the frame's fast locals (`url`, `ensemblemean`,
    `kwargs`, and the four helper functions imported from
    `.targetleadconv`) are re-synchronised into the locals dict when
    `eval` retrieves it, so they shadow injected keyword arguments;
    names not in the locals dict fall through to the module's globals
    and then to Python's builtins.  This behaviour was checked against
    CPython (3.11); on CPython >= 3.13 (PEP 667) the idiom no longer
    injects keyword arguments at all.
  * `str()` renderings of function, module and dict objects contain
    run-dependent data (memory addresses, file paths); the model gives
    them canonical renderings `<function f>`, `<module m>`,
    `<builtin b>`, `<dict kwargs>`.  No verified property depends on
    these renderings.
  * Effectful functions are modelled as pure functions from an explicit
    world (credential-file contents, HTTP response, path resolver) to
    an outcome record that carries the returned/raised value together
    with the observable effects (requests issued, credential reads,
    cookies sent, bytes written).
-/

set_option autoImplicit false

namespace Cptdl

/-- Values bindable as keyword arguments of `evaluate_url` / `download`,
and values produced by looking a name up in the f-string evaluation
environment.  `vOpaque` stands for Python objects (functions, modules,
dicts) whose `str()` rendering is abstracted to a canonical token. -/
inductive PyVal where
  | vInt (n : Int)
  | vStr (s : String)
  | vBool (b : Bool)
  | vOpaque (rendering : String)
  deriving DecidableEq

/-- Python `str()` on a `PyVal`:  `str(7) = "7"`, `str(True) = "True"`,
`str` of a string is itself, and opaque objects render canonically. -/
def PyVal.strForm : PyVal → String
  | .vInt n => toString n
  | .vStr s => s
  | .vBool b => cond b "True" "False"
  | .vOpaque r => r

/-- One piece of an f-string template: literal text, or an interpolation
marker `\x7bx\x7d` referencing the name `x`. -/
inductive Segment where
  | lit (s : String)
  | expr (x : String)
  deriving DecidableEq

/-- The raw template string a `List Segment` stands for; this is the value
of the local variable `url` inside `evaluate_url`. -/
def rawTemplate : List Segment → String
  | [] => ""
  | .lit s :: rest => s ++ rawTemplate rest
  | .expr x :: rest => "\x7b" ++ x ++ "\x7d" ++ rawTemplate rest

/-- First binding of a name in a keyword-argument list (Python dicts have
unique keys, so taking the first match is faithful). -/
def lookupName (kw : List (String × PyVal)) (x : String) : Option PyVal :=
  match kw with
  | [] => none
  | (k, v) :: rest => if k = x then some v else lookupName rest x

/-- Names imported inside `evaluate_url` by
`from .targetleadconv import seasonal_target, seasonal_target_length_monthly,
seasonal_target_length, threeletters` (utilities.py line 130).  Only the
bindings matter to the verified properties; the function bodies live in
the `targetleadconv` module. -/
def helperNames : List String :=
  ["seasonal_target", "seasonal_target_length_monthly",
   "seasonal_target_length", "threeletters"]

/-- Names bound at module level in utilities.py: the module-body imports,
the module's own functions and class, and the implicit module dunders. -/
def moduleGlobalNames : List String :=
  ["Path", "json", "getpass", "requests", "sys", "dt", "xr", "cio",
   "read_dlauth", "s2s_login", "c3s_login", "setup_dlauth", "PyCPT_ERROR",
   "evaluate_url", "simple_download", "download",
   "__name__", "__doc__", "__package__", "__loader__", "__spec__",
   "__file__", "__cached__", "__builtins__"]

/-- Names bound in CPython's `builtins` module (dumped from CPython 3.11;
the set is stable across the 3.x versions this package supports). -/
def builtinNames : List String :=
  ["ArithmeticError", "AssertionError", "AttributeError", "BaseException",
   "BaseExceptionGroup", "BlockingIOError", "BrokenPipeError", "BufferError",
   "BytesWarning", "ChildProcessError", "ConnectionAbortedError",
   "ConnectionError", "ConnectionRefusedError", "ConnectionResetError",
   "DeprecationWarning", "EOFError", "Ellipsis", "EncodingWarning",
   "EnvironmentError", "Exception", "ExceptionGroup", "False",
   "FileExistsError", "FileNotFoundError", "FloatingPointError",
   "FutureWarning", "GeneratorExit", "IOError", "ImportError",
   "ImportWarning", "IndentationError", "IndexError", "InterruptedError",
   "IsADirectoryError", "KeyError", "KeyboardInterrupt", "LookupError",
   "MemoryError", "ModuleNotFoundError", "NameError", "None",
   "NotADirectoryError", "NotImplemented", "NotImplementedError", "OSError",
   "OverflowError", "PendingDeprecationWarning", "PermissionError",
   "ProcessLookupError", "RecursionError", "ReferenceError",
   "ResourceWarning", "RuntimeError", "RuntimeWarning",
   "StopAsyncIteration", "StopIteration", "SyntaxError", "SyntaxWarning",
   "SystemError", "SystemExit", "TabError", "TimeoutError", "True",
   "TypeError", "UnboundLocalError", "UnicodeDecodeError",
   "UnicodeEncodeError", "UnicodeError", "UnicodeTranslateError",
   "UnicodeWarning", "UserWarning", "ValueError", "Warning",
   "ZeroDivisionError", "__build_class__", "__debug__", "__doc__",
   "__import__", "__loader__", "__name__", "__package__", "__spec__",
   "abs", "aiter", "all", "anext", "any", "ascii", "bin", "bool",
   "breakpoint", "bytearray", "bytes", "callable", "chr", "classmethod",
   "compile", "complex", "copyright", "credits", "delattr", "dict", "dir",
   "divmod", "enumerate", "eval", "exec", "exit", "filter", "float",
   "format", "frozenset", "getattr", "globals", "hasattr", "hash", "help",
   "hex", "id", "input", "int", "isinstance", "issubclass", "iter", "len",
   "license", "list", "locals", "map", "max", "memoryview", "min", "next",
   "object", "oct", "open", "ord", "pow", "print", "property", "quit",
   "range", "repr", "reversed", "round", "set", "setattr", "slice",
   "sorted", "staticmethod", "str", "sum", "super", "tuple", "type",
   "vars", "zip"]

/-- Name resolution for a marker inside the `eval` call of `evaluate_url`
(utilities.py line 132).  Resolution order is CPython's: the locals dict
first, where the frame's fast locals (`url`, `ensemblemean`, `kwargs` and
the four imported helpers) have been re-synchronised on top of the
entries injected by `locals().update(**kwargs)`, so they shadow keyword
arguments of the same name; then the module's globals; then builtins. -/
def envLookup (tmpl : List Segment) (ensemblemean : PyVal)
    (kw : List (String × PyVal)) (x : String) : Option PyVal :=
  if x = "url" then some (.vStr (rawTemplate tmpl))
  else if x = "ensemblemean" then some ensemblemean
  else if x = "kwargs" then some (.vOpaque "<dict kwargs>")
  else if helperNames.contains x then some (.vOpaque ("<function " ++ x ++ ">"))
  else
    match lookupName kw x with
    | some v => some v
    | none =>
      if moduleGlobalNames.contains x then some (.vOpaque ("<module " ++ x ++ ">"))
      else if builtinNames.contains x then some (.vOpaque ("<builtin " ++ x ++ ">"))
      else none

/-- Evaluation of one segment of the f-string: literal text passes
through; a marker is replaced by `str()` of the value its name resolves
to, and an unresolvable name raises `NameError`. -/
def evalSegment (tmpl : List Segment) (ensemblemean : PyVal)
    (kw : List (String × PyVal)) : Segment → Except String String
  | .lit s => .ok s
  | .expr x =>
    match envLookup tmpl ensemblemean kw x with
    | some v => .ok v.strForm
    | none => .error ("NameError: name \x27" ++ x ++ "\x27 is not defined")

/-- Left-to-right evaluation of the segments of the f-string, stopping at
the first failing marker, as CPython does. -/
def evalSegs (tmpl : List Segment) (ensemblemean : PyVal)
    (kw : List (String × PyVal)) : List Segment → Except String String
  | [] => .ok ""
  | s :: rest =>
    match evalSegment tmpl ensemblemean kw s with
    | .error e => .error e
    | .ok str =>
      match evalSegs tmpl ensemblemean kw rest with
      | .error e => .error e
      | .ok r => .ok (str ++ r)

/-- Model of `evaluate_url(url, ensemblemean=True, **kwargs)`
(utilities.py lines 116-132): evaluate the template as an f-string in the
environment described at `envLookup`.  `ensemblemean` is a `PyVal`
because callers may pass any value through `download`'s kwargs. -/
def evaluate_url (tmpl : List Segment) (ensemblemean : PyVal)
    (kw : List (String × PyVal)) : Except String String :=
  evalSegs tmpl ensemblemean kw tmpl

/-- Rendering of one segment with every marker replaced by `str()` of its
resolved value (unresolvable markers render as `""`; the rendering is
only ever applied when all markers resolve). -/
def substSeg (tmpl : List Segment) (ensemblemean : PyVal)
    (kw : List (String × PyVal)) : Segment → String
  | .lit s => s
  | .expr x =>
    match envLookup tmpl ensemblemean kw x with
    | some v => v.strForm
    | none => ""

/-- Rendering of a segment list with every marker substituted. -/
def renderSegs (tmpl : List Segment) (ensemblemean : PyVal)
    (kw : List (String × PyVal)) : List Segment → String
  | [] => ""
  | s :: rest =>
    substSeg tmpl ensemblemean kw s ++ renderSegs tmpl ensemblemean kw rest

/-- Discriminator: the evaluation ended in a raised error. -/
def errResult : Except String String → Bool
  | .error _ => true
  | .ok _ => false

theorem envLookup_isSome_of_bound (tmpl : List Segment) (em : PyVal)
    (kw : List (String × PyVal)) (x : String)
    (h : (lookupName kw x).isSome ∨ x = "ensemblemean" ∨ helperNames.contains x = true) :
    (envLookup tmpl em kw x).isSome := by
  unfold envLookup
  by_cases hu : x = "url"
  · simp [hu]
  · by_cases he : x = "ensemblemean"
    · simp [hu, he]
    · by_cases hk : x = "kwargs"
      · simp [hu, he, hk]
      · by_cases hh : x ∈ helperNames
        · simp [hu, he, hk, hh]
        · rcases h with hlk | he2 | hh2
          · cases hv : lookupName kw x with
            | none => rw [hv] at hlk; simp at hlk
            | some v => simp [hu, he, hk, hh, hv]
          · exact absurd he2 he
          · exact absurd (by simpa using hh2) hh

theorem evalSegs_ok_of_resolved (tmpl : List Segment) (em : PyVal)
    (kw : List (String × PyVal)) :
    ∀ l : List Segment,
      (∀ x, Segment.expr x ∈ l → (envLookup tmpl em kw x).isSome) →
      evalSegs tmpl em kw l = Except.ok (renderSegs tmpl em kw l) := by
  intro l
  induction l with
  | nil => intro _; rfl
  | cons s rest ih =>
    intro h
    cases s with
    | lit str =>
      have hrest := ih (fun x hx => h x (List.mem_cons_of_mem _ hx))
      simp [evalSegs, evalSegment, hrest, renderSegs, substSeg]
    | expr x =>
      have hx := h x (List.mem_cons_self _ _)
      obtain ⟨v, hv⟩ := Option.isSome_iff_exists.mp hx
      have hrest := ih (fun y hy => h y (List.mem_cons_of_mem _ hy))
      simp [evalSegs, evalSegment, hv, hrest, renderSegs, substSeg]

/-- C1: a template whose markers reference only names bound in the
environment (the supplied keyword parameters, the `ensemblemean` flag,
and the fixed helper functions) evaluates successfully to the template
with every marker replaced by the string form of its resolved value. -/
theorem evaluate_url_resolves_all_markers (tmpl : List Segment) (em : PyVal)
    (kw : List (String × PyVal))
    (h : ∀ x, Segment.expr x ∈ tmpl →
      (lookupName kw x).isSome ∨ x = "ensemblemean" ∨ helperNames.contains x = true) :
    evaluate_url tmpl em kw = Except.ok (renderSegs tmpl em kw tmpl) :=
  evalSegs_ok_of_resolved tmpl em kw tmpl
    (fun x hx => envLookup_isSome_of_bound tmpl em kw x (h x hx))

/-- Template of the spec scenario
`"http://x/\x7bfirst_year\x7d-\x7bfinal_year\x7d.tsv"`. -/
def scenarioTmpl : List Segment :=
  [.lit "http://x/", .expr "first_year", .lit "-", .expr "final_year", .lit ".tsv"]

/-- Parameters of the spec scenario: `first_year=1982, final_year=2018`. -/
def scenarioKw : List (String × PyVal) :=
  [("first_year", .vInt 1982), ("final_year", .vInt 2018)]

/-- C1 witness: the spec scenario evaluates to exactly
`"http://x/1982-2018.tsv"`. -/
theorem evaluate_url_resolves_all_markers_witness :
    evaluate_url scenarioTmpl (PyVal.vBool true) scenarioKw =
      Except.ok "http://x/1982-2018.tsv" :=
  (evaluate_url_resolves_all_markers scenarioTmpl (PyVal.vBool true) scenarioKw
    (by
      intro x hx
      simp [scenarioTmpl] at hx
      rcases hx with h1 | h1 <;> subst h1 <;> exact Or.inl (by decide))).trans
    (by rfl)

/-- C2 counterexample: the marker `\x7bjson\x7d` references a name absent
from both the supplied keyword parameters (none are supplied) and the
fixed helper namespace, yet `evaluate_url` succeeds and returns a string,
because the name resolves to the module-level import `json`. -/
theorem evaluate_url_global_marker_cex :
    lookupName [] "json" = none ∧
    helperNames.contains "json" = false ∧
    evaluate_url [Segment.expr "json"] (PyVal.vBool true) [] =
      Except.ok "<module json>" ∧
    errResult (evaluate_url [Segment.expr "json"] (PyVal.vBool true) []) = false :=
  ⟨rfl, rfl, rfl, rfl⟩

theorem evalSegs_err_of_unbound (tmpl : List Segment) (em : PyVal)
    (kw : List (String × PyVal)) :
    ∀ l : List Segment,
      (∃ x, Segment.expr x ∈ l ∧ envLookup tmpl em kw x = none) →
      errResult (evalSegs tmpl em kw l) = true := by
  intro l
  induction l with
  | nil =>
    rintro ⟨x, hx, _⟩
    simp at hx
  | cons s rest ih =>
    rintro ⟨x, hx, hnone⟩
    cases s with
    | lit str =>
      have hmem : Segment.expr x ∈ rest := by
        rcases List.mem_cons.mp hx with h1 | h1
        · exact absurd h1 (by simp)
        · exact h1
      have herr := ih ⟨x, hmem, hnone⟩
      cases hres : evalSegs tmpl em kw rest with
      | error e => simp [evalSegs, evalSegment, hres, errResult]
      | ok r => rw [hres] at herr; simp [errResult] at herr
    | expr y =>
      cases hy : envLookup tmpl em kw y with
      | none => simp [evalSegs, evalSegment, hy, errResult]
      | some v =>
        have hmem : Segment.expr x ∈ rest := by
          rcases List.mem_cons.mp hx with h1 | h1
          · injection h1 with hxy
            subst hxy
            rw [hnone] at hy
            cases hy
          · exact h1
        have herr := ih ⟨x, hmem, hnone⟩
        cases hres : evalSegs tmpl em kw rest with
        | error e => simp [evalSegs, evalSegment, hy, hres, errResult]
        | ok r => rw [hres] at herr; simp [errResult] at herr

/-- C2 amended: a template containing a marker whose name is absent from
the entire evaluation environment — the supplied keyword parameters, the
evaluator's own locals (`url`, `ensemblemean`, `kwargs`), the fixed
helper functions, the module's globals, and Python's builtins — makes
`evaluate_url` fail with an undefined-name error rather than return a
string. -/
theorem evaluate_url_unbound_marker_errors (tmpl : List Segment) (em : PyVal)
    (kw : List (String × PyVal))
    (h : ∃ x, Segment.expr x ∈ tmpl ∧ envLookup tmpl em kw x = none) :
    errResult (evaluate_url tmpl em kw) = true :=
  evalSegs_err_of_unbound tmpl em kw tmpl h

/-- C2 amended witness: a template referencing the unbound name
`first_yr_typo` fails with an error. -/
theorem evaluate_url_unbound_marker_errors_witness :
    errResult (evaluate_url [Segment.expr "first_yr_typo"] (PyVal.vBool true) []) = true :=
  evaluate_url_unbound_marker_errors _ _ _
    ⟨"first_yr_typo", by decide, by decide⟩

/-- Substring test on `List Char` (Python's `needle in hay`). -/
def hasSub (needle : List Char) : List Char → Bool
  | [] => needle.isEmpty
  | c :: t => needle.isPrefixOf (c :: t) || hasSub needle t

/-- Substring test on strings (Python's `needle in hay`). -/
def strHas (hay needle : String) : Bool :=
  hasSub needle.data hay.data

/-- Parse outcome of an existing `~/.pycpt_dlauth` file, as observed by
`read_dlauth` (utilities.py lines 38-51): either `json.loads` succeeds on
a record carrying a `key` field; or that step raises and the bytes are
decodable as text; or that step raises and the text decode raises too. -/
inductive CredParse where
  | jsonWithKey (token : String)
  | noKeyText (text : String)
  | noKeyBinary
  deriving DecidableEq

/-- Result of `read_dlauth`: the returned value (`None` is `none`) plus
the diagnostic messages printed on the way. -/
structure ReadResult where
  token : Option String
  messages : List String
  deriving DecidableEq

/-- Message printed by `read_dlauth` when `~/.pycpt_dlauth` is absent. -/
def signupMsg : String :=
  "You need to set up an IRIDLAUTH! Please set up an IRI account here (https://iridl.ldeo.columbia.edu/auth/signup), then use cptdl.setup_dlauth(\"your_iri_login_email\") to setup the cookie. This only needs to happen once!  "

/-- Message printed by `read_dlauth` when the file reads as text
containing `html`. -/
def htmlMsg : String :=
  "Your existing ~/.pycpt_dlauth file looked like an \x27incorrect username/password\x27 message!"

/-- Message printed by `read_dlauth` when the file cannot be read as
text. -/
def binaryMsg : String :=
  "Unable to read text from ~/.pycpt_dlauth - it might be binary spaghetti; broken download? delete it and set up again!"

/-- Model of `read_dlauth()` (utilities.py lines 32-51).  The input is
the state of `~/.pycpt_dlauth`: `none` when the file does not exist,
otherwise how its contents parse.  Note the source's fall-through: when
`json.loads`/`['key']` raises and the file reads as text NOT containing
`html`, control leaves the `if` with no `return` statement and no
`print`, so the function silently returns `None`. -/
def read_dlauth : Option CredParse → ReadResult
  | none => ⟨none, [signupMsg]⟩
  | some (.jsonWithKey t) => ⟨some t, []⟩
  | some (.noKeyText s) =>
    if strHas s "html" then ⟨none, [htmlMsg]⟩ else ⟨none, []⟩
  | some .noKeyBinary => ⟨none, [binaryMsg]⟩

/-- The exception kinds that can leave the download functions:
`PyCPT_ERROR` (utilities.py line 112), `AssertionError` from a failed
`assert`, and the `requests` HTTP error raised by
`raise_for_status()`. -/
inductive DlError where
  | pycptError (msg : String)
  | assertionError (msg : String)
  | httpError (status : Nat)
  deriving DecidableEq

/-- The (post-redirect) HTTP response the network would deliver for the
POST issued by `simple_download`: a status code and the body as the
sequence of chunks `iter_content(16*1024)` yields. -/
structure HttpResp where
  status : Nat
  chunks : List (List Nat)

/-- The external world `simple_download` interacts with: the credential
file state, the HTTP response in store, and the OS path resolver
(`Path(dest).expanduser().resolve()`). -/
structure DlWorld where
  cred : Option CredParse
  resp : HttpResp
  resolve : String → String

/-- Outcome of a `simple_download` call: the returned path or raised
error, together with the observable effects — number of HTTP requests
issued, number of `read_dlauth` calls, the cookies attached to the
request, the bytes written to the destination file (`none` when the file
was never opened), and the final value of the `total_size` counter. -/
structure DlOutcome where
  result : Except DlError String
  requestsMade : Nat
  credReads : Nat
  sentCookies : List (String × String)
  fileWritten : Option (List Nat)
  totalSize : Nat

/-- Model of CPython's `sys.getsizeof` on a `bytes` chunk (64-bit build):
the 32-byte `PyBytesObject` header plus a NUL terminator plus the
payload, i.e. `len(chunk) + 33`.  This is what utilities.py line 176
adds to `total_size` — not `len(chunk)`. -/
def sys_getsizeof (chunk : List Nat) : Nat :=
  chunk.length + 33

/-- The streaming loop of `simple_download` (utilities.py lines 174-180):
each arriving chunk is appended to the destination file and
`sys.getsizeof(chunk)` is added to `total_size`.  Returns the final file
contents and the final counter. -/
def writeChunks : List (List Nat) → List Nat × Nat
  | [] => ([], 0)
  | c :: rest =>
    let p := writeChunks rest
    (c ++ p.1, sys_getsizeof c + p.2)

/-- The part of `simple_download` from the `requests.post` on
(utilities.py lines 166-184): `raise_for_status()` raises for status
>= 400; otherwise the destination is resolved, the body is streamed to
it, and the resolved path is returned.  `credReads` is the number of
`read_dlauth` calls made before the request. -/
def issueRequest (cookies : List (String × String)) (dest : String)
    (credReads : Nat) (w : DlWorld) : DlOutcome :=
  if 400 ≤ w.resp.status then
    { result := .error (.httpError w.resp.status), requestsMade := 1,
      credReads := credReads, sentCookies := cookies,
      fileWritten := none, totalSize := 0 }
  else
    let p := writeChunks w.resp.chunks
    { result := .ok (w.resolve dest), requestsMade := 1,
      credReads := credReads, sentCookies := cookies,
      fileWritten := some p.1, totalSize := p.2 }

/-- Message of the failed assertion when `use_dlauth` is enabled but no
token is available (utilities.py line 162). -/
def dlauthAssertMsg : String :=
  "You need to use cpttools.setup_dlauth(\x27your_email\x27) to get a cookie before you can download this data! or, you can try setting use_dlauth=False"

/-- Model of `simple_download(url, dest, verbose, use_dlauth)`
(utilities.py lines 135-184).  The dlauth gate is the source's literal
test `str(use_dlauth) == 'True'`; when it passes, `read_dlauth` is
consulted and a `None` token trips the assertion BEFORE any request is
issued; otherwise the token travels as the `__dlauth_id` cookie.  The
final `assert path.is_file()` always passes in the model because the
file was just written. -/
def simple_download (url dest : String) (verbose : Bool)
    (use_dlauth : PyVal) (w : DlWorld) : DlOutcome :=
  if use_dlauth.strForm = "True" then
    match (read_dlauth w.cred).token with
    | none =>
      { result := .error (.assertionError dlauthAssertMsg),
        requestsMade := 0, credReads := 1, sentCookies := [],
        fileWritten := none, totalSize := 0 }
    | some t => issueRequest [("__dlauth_id", t)] dest 1 w
  else
    issueRequest [] dest 0 w

/-- Outcome of a `download` call: the parsed dataset (abstracted to a
tag) or raised error, plus the same observable effects as
`DlOutcome`. -/
structure FetchOutcome where
  result : Except DlError Nat
  requestsMade : Nat
  credReads : Nat
  fileWritten : Option (List Nat)

/-- Python's `format in ['cptv10.tsv', 'data.nc']` (utilities.py line
209): only the two string tags compare equal to the list elements. -/
def formatOk : PyVal → Bool
  | .vStr s => s == "cptv10.tsv" || s == "data.nc"
  | _ => false

/-- Message of the `PyCPT_ERROR` raised when `filetype` is missing
(utilities.py line 208). -/
def missingFiletypeMsg : String :=
  "Required keyword argument missing: \x27filetype\x27"

/-- Message of the `PyCPT_ERROR` raised when `evaluate_url` fails inside
`download` (utilities.py line 213); the `str()` rendering of the kwargs
dict is abstracted to `<kwargs>`. -/
def templateArgsMsg (tmpl : List Segment) : String :=
  "You must pass all the required arguments for this URL as keyword arguments in .download(...). \n URL: " ++ rawTemplate tmpl ++ "\n ARGS: <kwargs>"

/-- Message of the `PyCPT_ERROR` raised when the downloaded file fails to
parse (utilities.py line 220). -/
def brokenFileMsg (url : String) : String :=
  "Please check what\x27s downloaded from here, it may be a broken: " ++ url

/-- Model of `download(baseurl, dest, verbose, use_dlauth, **kwargs)`
(utilities.py lines 187-221).  Steps in source order: require the
`filetype` kwarg (else `PyCPT_ERROR`); `assert` it is one of the two
recognized tags (an `AssertionError`, not a `PyCPT_ERROR`); evaluate the
template (any failure becomes a `PyCPT_ERROR`); stream the download; and
hand the file to the parser chosen by `filetype`, whose failure
(`parses = false` in the world) becomes a `PyCPT_ERROR`.  When `kwargs`
contains `ensemblemean`, Python binds it to `evaluate_url`'s named
parameter; otherwise that parameter defaults to `True`. -/
def download (tmpl : List Segment) (dest : String) (verbose : Bool)
    (use_dlauth : PyVal) (kw : List (String × PyVal)) (w : DlWorld)
    (parses : Bool) : FetchOutcome :=
  match lookupName kw "filetype" with
  | none => ⟨.error (.pycptError missingFiletypeMsg), 0, 0, none⟩
  | some fmt =>
    if formatOk fmt then
      match evaluate_url tmpl ((lookupName kw "ensemblemean").getD (.vBool true)) kw with
      | .error _ => ⟨.error (.pycptError (templateArgsMsg tmpl)), 0, 0, none⟩
      | .ok url =>
        let o := simple_download url dest verbose use_dlauth w
        match o.result with
        | .error e => ⟨.error e, o.requestsMade, o.credReads, o.fileWritten⟩
        | .ok _ =>
          if parses then ⟨.ok 0, o.requestsMade, o.credReads, o.fileWritten⟩
          else ⟨.error (.pycptError (brokenFileMsg url)), o.requestsMade,
                o.credReads, o.fileWritten⟩
    else ⟨.error (.assertionError ("invalid download format: " ++ fmt.strForm)), 0, 0, none⟩

/-- Discriminator: the call raised a `PyCPT_ERROR` (as opposed to an
`AssertionError`, an HTTP error, or succeeding). -/
def isPycptResult {α : Type} : Except DlError α → Bool
  | .error (.pycptError _) => true
  | _ => false

/-- Outcome of a `setup_dlauth` call: the returned value or raised HTTP
error, plus the contents written to `~/.pycpt_dlauth` (`none` when no
write happened).  Printed messages are not tracked here. -/
structure SetupOutcome where
  result : Except DlError (Option String)
  fileWritten : Option String

/-- Model of `setup_dlauth(email)` (utilities.py lines 81-109).  Inputs:
the credential-file state, the HTTP statuses of the login POST and the
`genkey` GET, and the `genkey` response body decoded as text.  When the
file does not exist: a 4xx/5xx on either request raises; a `genkey` body
containing `html` reports failure and returns `None`; otherwise the body
is written to the file and the function falls off the end of the `if`,
returning `None`.  When the file exists, the existing token is returned
via `read_dlauth`. -/
def setup_dlauth (cred : Option CredParse) (loginStatus genkeyStatus : Nat)
    (genkeyContent : String) : SetupOutcome :=
  match cred with
  | none =>
    if 400 ≤ loginStatus then ⟨.error (.httpError loginStatus), none⟩
    else if 400 ≤ genkeyStatus then ⟨.error (.httpError genkeyStatus), none⟩
    else if strHas genkeyContent "html" then ⟨.ok none, none⟩
    else ⟨.ok none, some genkeyContent⟩
  | some p => ⟨.ok (read_dlauth (some p)).token, none⟩

theorem issueRequest_credReads (cookies : List (String × String))
    (dest : String) (n : Nat) (w : DlWorld) :
    (issueRequest cookies dest n w).credReads = n := by
  unfold issueRequest
  by_cases h4 : 400 ≤ w.resp.status
  · rw [if_pos h4]
  · rw [if_neg h4]

theorem issueRequest_sentCookies (cookies : List (String × String))
    (dest : String) (n : Nat) (w : DlWorld) :
    (issueRequest cookies dest n w).sentCookies = cookies := by
  unfold issueRequest
  by_cases h4 : 400 ≤ w.resp.status
  · rw [if_pos h4]
  · rw [if_neg h4]

theorem issueRequest_requestsMade (cookies : List (String × String))
    (dest : String) (n : Nat) (w : DlWorld) :
    (issueRequest cookies dest n w).requestsMade = 1 := by
  unfold issueRequest
  by_cases h4 : 400 ≤ w.resp.status
  · rw [if_pos h4]
  · rw [if_neg h4]

theorem writeChunks_fst (l : List (List Nat)) : (writeChunks l).1 = l.flatten := by
  induction l with
  | nil => rfl
  | cons c rest ih => simp [writeChunks, ih]

theorem writeChunks_snd (l : List (List Nat)) :
    (writeChunks l).2 = (l.map sys_getsizeof).sum := by
  induction l with
  | nil => rfl
  | cons c rest ih => simp [writeChunks, ih]

/-- World with no credential file, an empty 200 response, and an identity
path resolver, used to evaluate error paths that never reach the
network. -/
def wNull : DlWorld := ⟨none, ⟨200, []⟩, fun s => s⟩

/-- C3 counterexample: `download` with `filetype="bogus"` fails before
any network request and without creating a file, but with an
`AssertionError` (`assert format in ['cptv10.tsv', 'data.nc']`,
utilities.py line 209), not with the dedicated `PyCPT_ERROR` kind the
claim names. -/
theorem download_bad_filetype_cex :
    download [] "dest" false (PyVal.vBool true)
        [("filetype", PyVal.vStr "bogus")] wNull true =
      ⟨Except.error (DlError.assertionError "invalid download format: bogus"),
        0, 0, none⟩ ∧
    isPycptResult (download [] "dest" false (PyVal.vBool true)
        [("filetype", PyVal.vStr "bogus")] wNull true).result = false :=
  ⟨rfl, rfl⟩

/-- C3 amended: when the `filetype` kwarg is present but is neither
`cptv10.tsv` nor `data.nc`, `download` fails with an `AssertionError`
whose message names the invalid value, before any network request is
issued and before any file is created at the destination. -/
theorem download_bad_filetype_asserts (tmpl : List Segment) (dest : String)
    (verbose : Bool) (use_dlauth : PyVal) (kw : List (String × PyVal))
    (w : DlWorld) (parses : Bool) (v : PyVal)
    (h1 : lookupName kw "filetype" = some v) (h2 : formatOk v = false) :
    download tmpl dest verbose use_dlauth kw w parses =
      ⟨.error (.assertionError ("invalid download format: " ++ v.strForm)),
        0, 0, none⟩ := by
  unfold download
  rw [h1]
  simp [h2]

/-- C3 amended witness: a concrete invalid tag trips the assertion with
no request made and no file written. -/
theorem download_bad_filetype_asserts_witness :
    download [] "dest" false (PyVal.vBool true)
        [("filetype", PyVal.vStr "data.tsv")] wNull true =
      ⟨Except.error (DlError.assertionError "invalid download format: data.tsv"),
        0, 0, none⟩ :=
  download_bad_filetype_asserts [] "dest" false (PyVal.vBool true)
    [("filetype", PyVal.vStr "data.tsv")] wNull true (PyVal.vStr "data.tsv")
    rfl rfl

/-- C4: `download` without a `filetype` kwarg raises `PyCPT_ERROR` with a
message that names the missing argument, before any network request is
issued (and before any file is created). -/
theorem download_missing_filetype_pycpt (tmpl : List Segment) (dest : String)
    (verbose : Bool) (use_dlauth : PyVal) (kw : List (String × PyVal))
    (w : DlWorld) (parses : Bool)
    (h : lookupName kw "filetype" = none) :
    download tmpl dest verbose use_dlauth kw w parses =
      ⟨.error (.pycptError missingFiletypeMsg), 0, 0, none⟩ ∧
    strHas missingFiletypeMsg "filetype" = true := by
  constructor
  · unfold download
    rw [h]
  · rfl

/-- C4 witness: calling with no kwargs at all raises the
missing-filetype `PyCPT_ERROR` with no request made. -/
theorem download_missing_filetype_pycpt_witness :
    download [] "dest" false (PyVal.vBool true) [] wNull true =
      ⟨Except.error (DlError.pycptError missingFiletypeMsg), 0, 0, none⟩ ∧
    strHas missingFiletypeMsg "filetype" = true :=
  download_missing_filetype_pycpt [] "dest" false (PyVal.vBool true) [] wNull
    true rfl

/-- C5: for every successful streamed response delivered as a sequence of
chunks (and an auth gate that lets the request through),
`simple_download` writes exactly the concatenation of those chunks, in
order, to the destination file, returns the destination path resolved by
the OS, and leaves the destination file existing. -/
theorem simple_download_streams (url dest : String) (verbose : Bool)
    (use_dlauth : PyVal) (w : DlWorld)
    (hauth : use_dlauth.strForm = "True" → (read_dlauth w.cred).token.isSome)
    (hok : 200 ≤ w.resp.status ∧ w.resp.status < 300) :
    (simple_download url dest verbose use_dlauth w).result =
      Except.ok (w.resolve dest) ∧
    (simple_download url dest verbose use_dlauth w).fileWritten =
      some w.resp.chunks.flatten ∧
    (simple_download url dest verbose use_dlauth w).fileWritten.isSome = true ∧
    (simple_download url dest verbose use_dlauth w).requestsMade = 1 := by
  have hlt : ¬ 400 ≤ w.resp.status := by omega
  unfold simple_download
  by_cases h : use_dlauth.strForm = "True"
  · rw [if_pos h]
    obtain ⟨t, ht⟩ := Option.isSome_iff_exists.mp (hauth h)
    rw [ht]
    simp [issueRequest, hlt, writeChunks_fst]
  · rw [if_neg h]
    simp [issueRequest, hlt, writeChunks_fst]

/-- World for the C5 witness: 200 response in two chunks, resolver that
prepends an absolute directory. -/
def wStream : DlWorld := ⟨none, ⟨200, [[1, 2], [3]]⟩, fun s => "/abs/" ++ s⟩

/-- C5 witness: a two-chunk body is written as its concatenation and the
resolved path is returned. -/
theorem simple_download_streams_witness :
    (simple_download "http://x" "d.tsv" false (PyVal.vBool false) wStream).result =
      Except.ok "/abs/d.tsv" ∧
    (simple_download "http://x" "d.tsv" false (PyVal.vBool false) wStream).fileWritten =
      some [1, 2, 3] := by
  have h := simple_download_streams "http://x" "d.tsv" false (PyVal.vBool false)
    wStream (fun hc => absurd hc (by decide)) (by decide)
  exact ⟨h.1, by rw [h.2.1]; rfl⟩

/-- C6: when `str(use_dlauth) == 'True'` and the credential store yields
no token, `simple_download` fails with the fatal assertion before any
HTTP request is issued; when a token is available, it is attached as the
`__dlauth_id` cookie on the outgoing request. -/
theorem simple_download_dlauth_gate (url dest : String) (verbose : Bool)
    (use_dlauth : PyVal) (w : DlWorld)
    (htrue : use_dlauth.strForm = "True") :
    ((read_dlauth w.cred).token = none →
      simple_download url dest verbose use_dlauth w =
        ⟨.error (.assertionError dlauthAssertMsg), 0, 1, [], none, 0⟩) ∧
    (∀ t, (read_dlauth w.cred).token = some t →
      (simple_download url dest verbose use_dlauth w).sentCookies =
        [("__dlauth_id", t)] ∧
      (simple_download url dest verbose use_dlauth w).requestsMade = 1) := by
  constructor
  · intro hn
    unfold simple_download
    rw [if_pos htrue, hn]
  · intro t ht
    unfold simple_download
    rw [if_pos htrue, ht]
    exact ⟨issueRequest_sentCookies _ _ _ _, issueRequest_requestsMade _ _ _ _⟩

/-- C6 witness: with no credential file and `use_dlauth=True`, the call
fails with the assertion, zero requests made, no file written. -/
theorem simple_download_dlauth_gate_witness :
    simple_download "http://x" "d" false (PyVal.vStr "True")
        ⟨none, ⟨200, []⟩, fun s => s⟩ =
      ⟨Except.error (DlError.assertionError dlauthAssertMsg), 0, 1, [], none, 0⟩ :=
  (simple_download_dlauth_gate "http://x" "d" false (PyVal.vStr "True")
    ⟨none, ⟨200, []⟩, fun s => s⟩ rfl).1 rfl

/-- C7 counterexample: when the credential file exists, fails to parse as
a keyed record, and reads as text NOT containing `html` (here `hello`),
`read_dlauth` returns `None` on a failure path but emits NO diagnostic
message, contradicting the claim that every failure path produces one. -/
theorem read_dlauth_silent_none_cex :
    (read_dlauth (some (CredParse.noKeyText "hello"))).token = none ∧
    (read_dlauth (some (CredParse.noKeyText "hello"))).messages = [] :=
  ⟨rfl, rfl⟩

/-- C7 amended: `read_dlauth` never raises (it is a total function of the
file state): a valid keyed record yields its token; every other state
yields `None`, with a diagnostic message EXCEPT in the one state where
the file reads as text not containing `html`, which returns `None`
silently. -/
theorem read_dlauth_characterization (store : Option CredParse) :
    ((read_dlauth store).token =
      match store with
      | some (.jsonWithKey t) => some t
      | _ => none) ∧
    ((read_dlauth store).messages = [] ↔
      (∃ t, store = some (.jsonWithKey t)) ∨
      (∃ s, store = some (.noKeyText s) ∧ strHas s "html" = false)) := by
  rcases store with _ | t | s | _
  · refine ⟨rfl, ?_⟩
    simp [read_dlauth]
  · refine ⟨rfl, ?_⟩
    simp [read_dlauth]
  · by_cases hh : strHas s "html" = true
    · refine ⟨by simp [read_dlauth, hh], ?_⟩
      simp [read_dlauth, hh]
    · refine ⟨by simp [read_dlauth, hh], ?_⟩
      simp [read_dlauth, hh]
  · refine ⟨rfl, ?_⟩
    simp [read_dlauth]

/-- C7 amended witness: a valid keyed record returns its token with no
message; shown by instantiating the characterization. -/
theorem read_dlauth_characterization_witness :
    (read_dlauth (some (CredParse.jsonWithKey "tok123"))).token =
      some "tok123" := by
  have h := (read_dlauth_characterization (some (CredParse.jsonWithKey "tok123"))).1
  simpa using h

/-- World for the C8 failing input: a 200 response whose body is a single
one-byte chunk. -/
def wOneByte : DlWorld := ⟨none, ⟨200, [[65]]⟩, fun s => s⟩

/-- C8 code bug, evaluated at the failing input: for a body consisting of
one 1-byte chunk, the `total_size` counter ends at 34, not 1, because
utilities.py line 176 adds `sys.getsizeof(chunk)` — the chunk's Python
object size, payload plus 33 bytes of `bytes`-object overhead — rather
than `len(chunk)`.  The KB figure rendered from `total_size` therefore
overstates the downloaded content by 33 bytes per chunk. -/
theorem simple_download_sizeof_overcount :
    (simple_download "http://x" "d" false (PyVal.vBool false) wOneByte).totalSize = 34 ∧
    (simple_download "http://x" "d" false (PyVal.vBool false) wOneByte).fileWritten =
      some [65] ∧
    sys_getsizeof [65] = 34 ∧
    ([65] : List Nat).length = 1 ∧
    (simple_download "http://x" "d" false (PyVal.vBool false) wOneByte).totalSize ≠ 1 :=
  ⟨rfl, rfl, rfl, rfl, by decide⟩

/-- C9: the dlauth gate is the literal string test
`str(use_dlauth) == 'True'`: the credential store is consulted (exactly
once) iff the string form of `use_dlauth` is exactly `True`, and for any
other value — truthy or not — no authorization cookie is sent. -/
theorem simple_download_dlauth_strform (url dest : String) (verbose : Bool)
    (use_dlauth : PyVal) (w : DlWorld) :
    ((simple_download url dest verbose use_dlauth w).credReads = 1 ↔
      use_dlauth.strForm = "True") ∧
    (use_dlauth.strForm ≠ "True" →
      (simple_download url dest verbose use_dlauth w).sentCookies = []) := by
  by_cases h : use_dlauth.strForm = "True"
  · refine ⟨⟨fun _ => h, fun _ => ?_⟩, fun hne => absurd h hne⟩
    unfold simple_download
    rw [if_pos h]
    cases ht : (read_dlauth w.cred).token with
    | none => rfl
    | some t => exact issueRequest_credReads _ _ _ _
  · have h0 : (simple_download url dest verbose use_dlauth w).credReads = 0 := by
      unfold simple_download
      rw [if_neg h]
      exact issueRequest_credReads _ _ _ _
    refine ⟨⟨fun h1 => ?_, fun h2 => absurd h2 h⟩, fun _ => ?_⟩
    · rw [h0] at h1
      exact absurd h1 (by decide)
    · unfold simple_download
      rw [if_neg h]
      exact issueRequest_sentCookies _ _ _ _

/-- C9 witness: the truthy integer `1` (whose string form is `1`, not
`True`) does not enable authentication: no cookie is sent. -/
theorem simple_download_dlauth_strform_witness :
    (simple_download "http://x" "d" false (PyVal.vInt 1)
        ⟨none, ⟨200, []⟩, fun s => s⟩).sentCookies = [] :=
  (simple_download_dlauth_strform "http://x" "d" false (PyVal.vInt 1)
    ⟨none, ⟨200, []⟩, fun s => s⟩).2 (by decide)

/-- C10: `setup_dlauth` returns `None` on the successful first-time setup
path (the one that writes the key-generation response to the credential
file); it returns a token only when the credential file already existed,
and then exactly the token `read_dlauth` extracts from it. -/
theorem setup_dlauth_returns (cred : Option CredParse)
    (loginStatus genkeyStatus : Nat) (genkeyContent : String) :
    ((setup_dlauth cred loginStatus genkeyStatus genkeyContent).fileWritten.isSome →
      (setup_dlauth cred loginStatus genkeyStatus genkeyContent).result =
        Except.ok none) ∧
    (∀ t, (setup_dlauth cred loginStatus genkeyStatus genkeyContent).result =
        Except.ok (some t) →
      ∃ p, cred = some p ∧ (read_dlauth (some p)).token = some t) := by
  rcases cred with _ | p
  · unfold setup_dlauth
    by_cases h1 : 400 ≤ loginStatus
    · rw [if_pos h1]
      exact ⟨fun h => by simp at h, fun t ht => by cases ht⟩
    · rw [if_neg h1]
      by_cases h2 : 400 ≤ genkeyStatus
      · rw [if_pos h2]
        exact ⟨fun h => by simp at h, fun t ht => by cases ht⟩
      · rw [if_neg h2]
        by_cases h3 : strHas genkeyContent "html" = true
        · rw [if_pos h3]
          refine ⟨fun h => by simp at h, fun t ht => ?_⟩
          exfalso
          have := Except.ok.inj ht
          cases this
        · rw [if_neg h3]
          refine ⟨fun _ => rfl, fun t ht => ?_⟩
          exfalso
          have := Except.ok.inj ht
          cases this
  · refine ⟨fun h => by simp [setup_dlauth] at h, fun t ht => ⟨p, rfl, ?_⟩⟩
    have := Except.ok.inj ht
    exact this

/-- C10 witness: a first-time setup with both requests succeeding and a
non-html key payload writes the file and returns `None`. -/
theorem setup_dlauth_returns_witness :
    (setup_dlauth none 200 200 "KEYBYTES").result = Except.ok none ∧
    (setup_dlauth none 200 200 "KEYBYTES").fileWritten = some "KEYBYTES" :=
  ⟨(setup_dlauth_returns none 200 200 "KEYBYTES").1 (by decide), rfl⟩

end Cptdl
